import Mathlib

/-!
Shallow embedding of `github.py` from the `get-git` repository
(class `GitHubAssistant`) and verification of its specification.

Modelling conventions:
* HTTP traffic is modelled by explicit inputs: an account's full server-side
  repository list together with the status code its listing endpoint returns
  (`ListResponse`); a `GET /user/repos?per_page=100` request without a `page`
  parameter returns the first page, i.e. the first 100 entries (`pageOf`).
* Interactive `Confirm.ask` prompts are modelled as boolean inputs.
* `console.print` lines are collected in a `messages` list; the identifying
  text of each line is kept, interpolated values and rich markup are omitted.
* Subprocess invocations (`git clone/remote set-url/push`) are modelled by an
  `Option Nat`: `some rc` is a completed process with exit code `rc`, `none`
  is an invocation that raises (e.g. the executable is missing); the Python
  code has no try/finally, so a raise propagates out of the function.
* Python dicts built by comprehensions are modelled by association lists with
  last-write-wins insertion (`pyDict`).
-/

namespace GetGit

/-- One element of the JSON array returned by `GET /user/repos`
(the fields `github.py` reads). -/
structure RepoJson where
  name : String
  owner_login : String
  is_private : Bool
  html_url : String
  stargazers_count : Nat
  forks_count : Nat
deriving DecidableEq, Repr

/-- The per-repository dictionary built by `get_repositories` (github.py lines 74-82). -/
structure RepoInfo where
  name : String
  html_url : String
  visibility : String
  repo_type : String
  owner : String
  stargazers_count : Nat
  forks_count : Nat
deriving DecidableEq, Repr

/-- An account as seen through its listing endpoint: the full server-side
repository list plus the HTTP status the listing request comes back with. -/
structure ListResponse where
  status_code : Nat
  repos : List RepoJson
deriving Repr

/-- Python `str.lower()`, modelled character-wise. -/
def strLower (s : String) : String := ⟨s.data.map Char.toLower⟩

/-- Page `page` (1-based) of a paginated listing at page size `per_page`.
A request without an explicit `page` parameter returns page 1. -/
def pageOf (repos : List RepoJson) (per_page page : Nat) : List RepoJson :=
  (repos.drop ((page - 1) * per_page)).take per_page

/-- Body of the `for repo in repos` loop of `get_repositories`
(github.py lines 65-82): classification as owner/collaborator by
case-insensitive login comparison, visibility from the `private` flag. -/
def mkRepoInfo (username : String) (repo : RepoJson) : RepoInfo :=
  { name := repo.name
    html_url := repo.html_url
    visibility := if repo.is_private then "Private" else "Public"
    repo_type :=
      if strLower repo.owner_login == strLower username then "owner" else "collaborator"
    owner := repo.owner_login
    stargazers_count := repo.stargazers_count
    forks_count := repo.forks_count }

/-- The filtering loop of `get_repositories` (github.py lines 64-89):
skip entries that do not match `repo_filter`, append the rest in order. -/
def processRepos (username repo_filter : String) : List RepoJson → List RepoInfo
  | [] => []
  | repo :: rest =>
    let info := mkRepoInfo username repo
    if repo_filter == "owner" && info.repo_type != "owner" then
      processRepos username repo_filter rest
    else if repo_filter == "collaborator" && info.repo_type != "collaborator" then
      processRepos username repo_filter rest
    else
      info :: processRepos username repo_filter rest

/-- `get_repositories` (github.py lines 44-89): issues exactly one
`GET /user/repos?per_page=100` request — no `page` parameter and no loop over
further pages, so the response body is the first page only — and returns `[]`
when the status is not 200, otherwise the filtered page. -/
def get_repositories (username : String) (account : ListResponse)
    (repo_filter : String) : List RepoInfo :=
  if account.status_code != 200 then []
  else processRepos username repo_filter (pageOf account.repos 100 1)

/-- Insert into an association list with Python-dict semantics:
an existing key keeps its position and gets the new value, a new key
is appended. -/
def dictInsert : List (String × String) → String → String → List (String × String)
  | [], k, v => [(k, v)]
  | (k0, v0) :: rest, k, v =>
    if k0 == k then (k, v) :: rest else (k0, v0) :: dictInsert rest k v

/-- A Python dict comprehension over a list of key/value pairs:
insertion order, last write wins. -/
def pyDict (l : List (String × String)) : List (String × String) :=
  l.foldl (fun d p => dictInsert d p.1 p.2) []

/-- The keys of an association list (Python `in` on a dict tests keys). -/
def dictKeys (d : List (String × String)) : List String := d.map Prod.fst

/-- `list_duplicate_repos` (github.py lines 249-280): the acting account's
owner-filtered listing (via `get_repositories`), one first-page request for
the other account returning `{}` on non-200, the other account's repos
filtered to owner-only by case-insensitive login comparison, and the
name-keyed intersection carrying the acting account's visibility. The
fetch-error line this function prints on the non-200 path (github.py lines
265-267) is modelled by `list_duplicate_repos_messages`. -/
def list_duplicate_repos (username : String) (myAccount : ListResponse)
    (other_username : String) (otherAccount : ListResponse) :
    List (String × String) :=
  let my_repos := get_repositories username myAccount "owner"
  if otherAccount.status_code != 200 then []
  else
    let other_repos :=
      pyDict (((pageOf otherAccount.repos 100 1).filter
          (fun repo => strLower repo.owner_login == strLower other_username)).map
        (fun repo => (repo.name, if repo.is_private then "Private" else "Public")))
    pyDict ((my_repos.filter
        (fun repo => (dictKeys other_repos).contains repo.name)).map
      (fun repo => (repo.name, repo.visibility)))

/-- Result of `delete_repository` (github.py lines 91-112): whether the HTTP
DELETE request was actually issued, whether it reported success (204), and the
console lines printed. -/
structure DeleteRepoOutcome where
  requested : Bool
  ok : Bool
  messages : List String
deriving DecidableEq, Repr

/-- `delete_repository` (github.py lines 91-112): its own confirmation prompt
guards the HTTP DELETE; declining issues nothing and returns `False`;
success is exactly status 204. -/
def delete_repository (confirm : Bool) (status_code : Nat) : DeleteRepoOutcome :=
  if !confirm then
    { requested := false, ok := false, messages := ["Deletion cancelled."] }
  else if status_code == 204 then
    { requested := true, ok := true, messages := ["Repository successfully deleted."] }
  else
    { requested := true, ok := false, messages := ["Error deleting repository"] }

/-- Interactive/remote environment of `delete_duplicate_repos`: the batch
confirmation answer, and per repository name the answer to
`delete_repository`'s own prompt and the status of its DELETE request. -/
structure DeleteDupEnv where
  batch_confirm : Bool
  per_repo_confirm : String → Bool
  delete_status : String → Nat

/-- Observable outcome of `delete_duplicate_repos`: the repositories for which
`delete_repository` was invoked, those for which an HTTP DELETE was actually
issued, and the console lines printed by `delete_duplicate_repos` itself
(nested `delete_repository` lines included in order). The line printed by the
nested `list_duplicate_repos` call on a failed fetch is modelled by
`list_duplicate_repos_messages`; the full console trace of a run is
`delete_duplicate_repos_console`. -/
structure DeleteDupOutcome where
  attempts : List String
  issued_deletes : List String
  messages : List String
deriving DecidableEq, Repr

/-- `delete_duplicate_repos` (github.py lines 282-313): empty duplicate set
reports "No duplicate repositories found."; a nonempty set whose every name is
excluded reports "All duplicates were excluded from deletion."; otherwise one
batch confirmation, then one `delete_repository` call per remaining
repository, ignoring each call's result. -/
def delete_duplicate_repos (username : String) (myAccount : ListResponse)
    (other_username : String) (otherAccount : ListResponse)
    (exclude : List String) (env : DeleteDupEnv) : DeleteDupOutcome :=
  let duplicates := list_duplicate_repos username myAccount other_username otherAccount
  if duplicates.isEmpty then
    { attempts := [], issued_deletes := [],
      messages := ["No duplicate repositories found."] }
  else
    let repos_to_delete := duplicates.filter (fun p => !(exclude.contains p.1))
    if repos_to_delete.isEmpty then
      { attempts := [], issued_deletes := [],
        messages := ["All duplicates were excluded from deletion."] }
    else
      let listing :=
        ["The following duplicate repositories will be deleted:"] ++
          repos_to_delete.map (fun p => " - " ++ p.1 ++ " (" ++ p.2 ++ ")")
      if !env.batch_confirm then
        { attempts := [], issued_deletes := [],
          messages := listing ++ ["Deletion cancelled."] }
      else
        let results := repos_to_delete.map
          (fun p => (p.1, delete_repository (env.per_repo_confirm p.1) (env.delete_status p.1)))
        { attempts := repos_to_delete.map Prod.fst
          issued_deletes := (results.filter (fun r => r.2.requested)).map Prod.fst
          messages := listing ++ (results.map (fun r => r.2.messages)).flatten ++
            ["Duplicate repositories deletion completed."] }

/-- The console line printed by `list_duplicate_repos` itself (github.py
lines 265-267): on a non-200 response for the other account it prints the
fetch-error line naming the other account before returning the empty dict;
on a 200 response it prints nothing. -/
def list_duplicate_repos_messages (other_username : String)
    (otherAccount : ListResponse) : List String :=
  if otherAccount.status_code != 200 then
    ["Error fetching repositories for " ++ other_username]
  else []

/-- The full console trace of one `delete_duplicate_repos` run: the nested
`list_duplicate_repos` call prints first (its fetch-error line, if any),
followed by the lines of `delete_duplicate_repos` itself and of its nested
`delete_repository` calls. -/
def delete_duplicate_repos_console (username : String) (myAccount : ListResponse)
    (other_username : String) (otherAccount : ListResponse)
    (exclude : List String) (env : DeleteDupEnv) : List String :=
  list_duplicate_repos_messages other_username otherAccount ++
    (delete_duplicate_repos username myAccount other_username otherAccount
      exclude env).messages

/-- The JSON body of the `POST /user/repos` creation request issued by
`transfer_repository` (github.py line 163): `create_data = \x7b"name": repo_name,
"private": True\x7d`. -/
structure CreateRequest where
  name : String
  is_private : Bool
deriving DecidableEq, Repr

/-- The states of the migration chain, in the order `transfer_repository`
passes through them. -/
inductive Step where
  | Confirmed
  | DestinationCreated
  | Cloned
  | RemotePointed
  | Pushed
  | Cleaned
  | SourceDeleted
deriving DecidableEq, Repr

/-- Interactive/remote/subprocess environment of one `transfer_repository`
invocation. `clone_rc`, `set_remote_rc`, `push_rc` are `some rc` for a
completed subprocess with exit code `rc` and `none` for an invocation that
raises; `clone_creates_dir` records whether the directory `repo_name.git`
exists after a zero-exit clone (the `os.path.exists` check at line 193). -/
structure TransferEnv where
  repo_name : String
  new_owner : String
  delete_old : Bool
  confirm : Bool
  create_status : Nat
  clone_rc : Option Nat
  clone_creates_dir : Bool
  set_remote_rc : Option Nat
  push_rc : Option Nat
  old_cwd : String
  delete_old_confirm : Bool
  delete_repo_confirm : Bool
  delete_status : Nat

/-- Observable outcome of `transfer_repository`: `result = some b` models a
normal return of `b`, `result = none` an exception propagating out of the
function; `final_cwd` is the process working directory when control leaves the
function; `dir_present` is whether the local mirror directory exists then;
`clone_attempted` is whether the clone subprocess was invoked;
`create_request` is the creation request sent to the destination account, if
any; `events` are the migration states reached, in order. -/
structure TransferOutcome where
  result : Option Bool
  messages : List String
  final_cwd : String
  dir_present : Bool
  clone_attempted : Bool
  create_request : Option CreateRequest
  events : List Step
deriving DecidableEq, Repr

/-- `transfer_repository` (github.py lines 137-247), step by step:
confirmation; `POST /user/repos` with `private: True` under the destination
token, abort unless 201; `git clone --mirror`, abort on nonzero exit or
missing directory; `os.chdir(repo_dir)`, `git remote set-url` (on failure
`os.chdir(old_cwd)` then return); `git push --mirror` followed by
`os.chdir(old_cwd)` before the exit-code check; `shutil.rmtree(...,
ignore_errors=True)`; optionally re-confirm and call `delete_repository`,
whose failure is reported but does not change the `True` return. There is no
try/finally, so a raising subprocess invocation between the two `chdir`
calls propagates with the working directory still the mirror directory. -/
def transfer_repository (env : TransferEnv) : TransferOutcome :=
  let repo_dir := env.repo_name ++ ".git"
  let mirror_cwd := env.old_cwd ++ "/" ++ repo_dir
  if !env.confirm then
    { result := some false, messages := ["Transfer cancelled."]
      final_cwd := env.old_cwd, dir_present := false, clone_attempted := false
      create_request := none, events := [] }
  else
    let createReq : CreateRequest := { name := env.repo_name, is_private := true }
    if env.create_status != 201 then
      { result := some false
        messages := ["Error creating repository on the new account"]
        final_cwd := env.old_cwd, dir_present := false, clone_attempted := false
        create_request := some createReq, events := [.Confirmed] }
    else
      let msgs0 := ["Repository created on the new account.", "Cloning repository..."]
      match env.clone_rc with
      | none =>
        { result := none, messages := msgs0
          final_cwd := env.old_cwd, dir_present := false, clone_attempted := true
          create_request := some createReq
          events := [.Confirmed, .DestinationCreated] }
      | some clone_code =>
        if clone_code != 0 then
          { result := some false, messages := msgs0 ++ ["Error cloning repository"]
            final_cwd := env.old_cwd, dir_present := false, clone_attempted := true
            create_request := some createReq
            events := [.Confirmed, .DestinationCreated] }
        else if !env.clone_creates_dir then
          { result := some false, messages := msgs0 ++ ["Local directory not found."]
            final_cwd := env.old_cwd, dir_present := false, clone_attempted := true
            create_request := some createReq
            events := [.Confirmed, .DestinationCreated, .Cloned] }
        else
          let msgs1 := msgs0 ++ ["Pushing repository to the new account..."]
          match env.set_remote_rc with
          | none =>
            { result := none, messages := msgs1
              final_cwd := mirror_cwd, dir_present := true, clone_attempted := true
              create_request := some createReq
              events := [.Confirmed, .DestinationCreated, .Cloned] }
          | some set_remote_code =>
            if set_remote_code != 0 then
              { result := some false
                messages := msgs1 ++ ["Error setting new remote"]
                final_cwd := env.old_cwd, dir_present := true, clone_attempted := true
                create_request := some createReq
                events := [.Confirmed, .DestinationCreated, .Cloned] }
            else
              match env.push_rc with
              | none =>
                { result := none, messages := msgs1
                  final_cwd := mirror_cwd, dir_present := true, clone_attempted := true
                  create_request := some createReq
                  events := [.Confirmed, .DestinationCreated, .Cloned, .RemotePointed] }
              | some push_code =>
                if push_code != 0 then
                  { result := some false
                    messages := msgs1 ++ ["Error pushing repository to the new account"]
                    final_cwd := env.old_cwd, dir_present := true, clone_attempted := true
                    create_request := some createReq
                    events := [.Confirmed, .DestinationCreated, .Cloned, .RemotePointed] }
                else
                  let msgs2 := msgs1 ++ ["Removing local directory..."]
                  let ev0 : List Step :=
                    [.Confirmed, .DestinationCreated, .Cloned, .RemotePointed,
                     .Pushed, .Cleaned]
                  if env.delete_old && env.delete_old_confirm then
                    let dres := delete_repository env.delete_repo_confirm env.delete_status
                    { result := some true
                      messages := msgs2 ++ dres.messages ++
                        (if dres.ok then []
                         else ["Failed to delete repository from the old account."]) ++
                        ["Repository transferred successfully."]
                      final_cwd := env.old_cwd, dir_present := false
                      clone_attempted := true, create_request := some createReq
                      events := ev0 ++ (if dres.ok then [.SourceDeleted] else []) }
                  else
                    { result := some true
                      messages := msgs2 ++ ["Repository transferred successfully."]
                      final_cwd := env.old_cwd, dir_present := false
                      clone_attempted := true, create_request := some createReq
                      events := ev0 }

/-- A server-side repository record with the given owner, name and privacy. -/
def mkRepo (owner name : String) (is_private : Bool) : RepoJson :=
  { name := name, owner_login := owner, is_private := is_private
    html_url := "", stargazers_count := 0, forks_count := 0 }

/-- The names of the repositories in `l` owned by `username` under
case-insensitive login comparison (the owner-only view of an account). -/
def ownerNames (username : String) (l : List RepoJson) : List String :=
  (l.filter (fun r => strLower r.owner_login == strLower username)).map RepoJson.name

/-- An account owning 101 repositories: one more than a single page holds. -/
def c1Account : ListResponse :=
  { status_code := 200
    repos := (List.range 101).map (fun i => mkRepo "alice" ("r" ++ toString i) false) }

/-- An environment in which the operator declines the initial transfer
confirmation. -/
def c2DeclinedEnv : TransferEnv :=
  { repo_name := "proj", new_owner := "bob", delete_old := false
    confirm := false, create_status := 201, clone_rc := some 0
    clone_creates_dir := true, set_remote_rc := some 0, push_rc := some 0
    old_cwd := "/work", delete_old_confirm := false
    delete_repo_confirm := false, delete_status := 204 }

/-- An environment in which the operator confirms but destination creation
fails (HTTP 422). -/
def c2FailedEnv : TransferEnv :=
  { c2DeclinedEnv with confirm := true, create_status := 422 }

/-- Acting account for the duplicate-deletion scenario: alice owns a and b. -/
def c3MyAccount : ListResponse :=
  { status_code := 200, repos := [mkRepo "alice" "a" false, mkRepo "alice" "b" false] }

/-- Other account for the duplicate-deletion scenario: bob owns a and b. -/
def c3OtherAccount : ListResponse :=
  { status_code := 200, repos := [mkRepo "bob" "a" true, mkRepo "bob" "b" true] }

/-- Batch confirmation granted, every per-repository prompt declined, every
DELETE request would succeed (204). -/
def c3Env : DeleteDupEnv :=
  { batch_confirm := true, per_repo_confirm := fun _ => false
    delete_status := fun _ => 204 }

/-- An environment in which the `git remote set-url` subprocess invocation
raises while the process is chdir'd into the mirror directory. -/
def c4ExceptionEnv : TransferEnv :=
  { repo_name := "proj", new_owner := "bob", delete_old := false
    confirm := true, create_status := 201, clone_rc := some 0
    clone_creates_dir := true, set_remote_rc := none, push_rc := some 0
    old_cwd := "/work", delete_old_confirm := false
    delete_repo_confirm := false, delete_status := 204 }

/-- A fully successful migration environment (no source deletion). -/
def happyEnv : TransferEnv :=
  { repo_name := "proj", new_owner := "bob", delete_old := false
    confirm := true, create_status := 201, clone_rc := some 0
    clone_creates_dir := true, set_remote_rc := some 0, push_rc := some 0
    old_cwd := "/work", delete_old_confirm := false
    delete_repo_confirm := false, delete_status := 204 }

/-- Acting account of the pagination-vs-intersection scenario: alice owns
r0..r99 and, as the 101st repository, dup. -/
def c7MyAccount : ListResponse :=
  { status_code := 200
    repos := ((List.range 100).map (fun i => mkRepo "alice" ("r" ++ toString i) false)) ++
      [mkRepo "alice" "dup" false] }

/-- Other account of the pagination-vs-intersection scenario: carol owns dup. -/
def c7OtherAccount : ListResponse :=
  { status_code := 200, repos := [mkRepo "carol" "dup" true] }

/-- A listing response that fails with HTTP 500. -/
def failedListResponse : ListResponse := { status_code := 500, repos := [] }

/-- An interactive environment that would confirm and succeed everywhere. -/
def allYesEnv : DeleteDupEnv :=
  { batch_confirm := true, per_repo_confirm := fun _ => true
    delete_status := fun _ => 204 }

/-! ## Helper lemmas -/

theorem processRepos_length_le (username repo_filter : String) (l : List RepoJson) :
    (processRepos username repo_filter l).length ≤ l.length := by
  induction l with
  | nil => simp [processRepos]
  | cons r rest ih =>
    simp only [processRepos, List.length_cons]
    split
    · exact Nat.le_succ_of_le ih
    · split
      · exact Nat.le_succ_of_le ih
      · simp only [List.length_cons]
        exact Nat.succ_le_succ ih

theorem cancel_not_in_delete_messages (c : Bool) (s : Nat) :
    "Transfer cancelled." ∉ (delete_repository c s).messages := by
  cases c
  · simp [delete_repository]
  · by_cases h : (s == 204) = true <;> simp [delete_repository, h]

theorem delete_repository_requested (c : Bool) (s : Nat) :
    (delete_repository c s).requested = c := by
  cases c
  · simp [delete_repository]
  · by_cases h : (s == 204) = true <;> simp [delete_repository, h]

theorem issued_deletes_filter (env : DeleteDupEnv) (l : List (String × String)) :
    ((l.map (fun p =>
        (p.1, delete_repository (env.per_repo_confirm p.1) (env.delete_status p.1)))).filter
      (fun r => r.2.requested)).map Prod.fst =
      (l.filter (fun p => env.per_repo_confirm p.1)).map Prod.fst := by
  induction l with
  | nil => rfl
  | cons p rest ih =>
    simp only [List.map_cons, List.filter_cons, delete_repository_requested]
    cases hval : env.per_repo_confirm p.1 <;> simp [hval, ih]

/-! ## C1 — pagination of the repository listing -/

/-- C1, counterexample: an account with 101 owned repositories (one more than
a page) for which `get_repositories` returns only 100 entries, so a
repository set larger than one page is not returned in full. -/
theorem C1_counterexample :
    c1Account.status_code = 200 ∧
    c1Account.repos.length = 101 ∧
    (∀ r ∈ c1Account.repos, strLower r.owner_login = strLower "alice") ∧
    (get_repositories "alice" c1Account "owner").length = 100 := by decide

/-- C1, amended: `get_repositories` issues a single `per_page=100` request
with no page loop, so it returns only first-page repositories and its result
never holds more than 100 entries, for any account, credential and filter. -/
theorem C1_first_page_only (username : String) (account : ListResponse)
    (repo_filter : String) :
    (get_repositories username account repo_filter).length ≤ 100 := by
  unfold get_repositories
  split
  · simp
  · calc (processRepos username repo_filter (pageOf account.repos 100 1)).length
        ≤ (pageOf account.repos 100 1).length :=
          processRepos_length_le username repo_filter _
      _ ≤ 100 := by simp [pageOf]

/-! ## C2 — cancellation vs failure of a transfer -/

/-- C2, counterexample: a run in which the operator declines the initial
confirmation and a run that fails at the destination-creation step return the
same value (`False`), so the operation's result does not distinguish an
operator-declined run from a failed run. -/
theorem C2_counterexample :
    c2DeclinedEnv.confirm = false ∧
    c2FailedEnv.confirm = true ∧
    c2FailedEnv.create_status ≠ 201 ∧
    (transfer_repository c2DeclinedEnv).result = some false ∧
    (transfer_repository c2DeclinedEnv).result = (transfer_repository c2FailedEnv).result := by
  decide

set_option maxHeartbeats 1000000 in
/-- C2, amended: declining the initial confirmation makes
`transfer_repository` return `False` — the same value every failed run
returns — and print exactly "Transfer cancelled."; that line is never printed
by a confirmed run, so the decline is distinguishable only through the
console output, not through the returned value. -/
theorem C2_cancel_only_by_message (env : TransferEnv) :
    (env.confirm = false →
      transfer_repository env =
        { result := some false, messages := ["Transfer cancelled."]
          final_cwd := env.old_cwd, dir_present := false, clone_attempted := false
          create_request := none, events := [] }) ∧
    (env.confirm = true → "Transfer cancelled." ∉ (transfer_repository env).messages) := by
  constructor
  · intro h
    simp [transfer_repository, h]
  · intro h
    unfold transfer_repository
    simp only [h]
    repeat' split
    all_goals simp_all [cancel_not_in_delete_messages]

/-- C2, witness for the amended theorem at a declining and a confirming
environment. -/
theorem C2_cancel_only_by_message_witness :
    (c2DeclinedEnv.confirm = false →
      transfer_repository c2DeclinedEnv =
        { result := some false, messages := ["Transfer cancelled."]
          final_cwd := c2DeclinedEnv.old_cwd, dir_present := false
          clone_attempted := false, create_request := none, events := [] }) ∧
    (c2DeclinedEnv.confirm = true →
      "Transfer cancelled." ∉ (transfer_repository c2DeclinedEnv).messages) :=
  C2_cancel_only_by_message c2DeclinedEnv

/-! ## C4 — restoration of the working directory -/

/-- C4, counterexample: when the `git remote set-url` subprocess invocation
raises, the exception propagates out of `transfer_repository` with the
process still chdir'd into the mirror directory — the prior working directory
is not restored on this exit path. -/
theorem C4_counterexample :
    (transfer_repository c4ExceptionEnv).result = none ∧
    c4ExceptionEnv.old_cwd = "/work" ∧
    (transfer_repository c4ExceptionEnv).final_cwd = "/work/proj.git" ∧
    (transfer_repository c4ExceptionEnv).final_cwd ≠ c4ExceptionEnv.old_cwd := by
  decide

/-- C4, amended: the prior working directory is restored on every exit path
on which `transfer_repository` returns (success or step failure); only a run
that terminates by a propagating exception can leave the process chdir'd into
the mirror directory. -/
theorem C4_cwd_restored_on_return (env : TransferEnv) :
    (transfer_repository env).result = none ∨
      (transfer_repository env).final_cwd = env.old_cwd := by
  unfold transfer_repository
  repeat' split
  all_goals simp

/-! ## C5 — ordering of the migration state machine -/

/-- C5: on every execution, `Pushed` is reached only after
`DestinationCreated` and then `Cloned`, in that order; and when destination
creation fails on a confirmed run, the job returns `False` with no clone
attempted, no local directory created, and no state beyond `Confirmed`
reached. -/
theorem C5_state_order (env : TransferEnv) :
    (Step.Pushed ∈ (transfer_repository env).events →
      [Step.DestinationCreated, Step.Cloned, Step.Pushed].Sublist
        (transfer_repository env).events) ∧
    (env.confirm = true → env.create_status ≠ 201 →
      (transfer_repository env).result = some false ∧
      (transfer_repository env).clone_attempted = false ∧
      (transfer_repository env).dir_present = false ∧
      (transfer_repository env).events = [Step.Confirmed]) := by
  constructor
  · unfold transfer_repository
    repeat' split
    all_goals intro hmem
    all_goals simp_all
  · intro h hc
    have hc' : (env.create_status != 201) = true := by
      simpa using hc
    simp [transfer_repository, h, hc']

/-- C5, witness: the ordering fact and the failed-creation fact instantiated
at the failing-creation environment. -/
theorem C5_state_order_witness :
    ((Step.Pushed ∈ (transfer_repository c2FailedEnv).events →
      [Step.DestinationCreated, Step.Cloned, Step.Pushed].Sublist
        (transfer_repository c2FailedEnv).events) ∧
    (c2FailedEnv.confirm = true → c2FailedEnv.create_status ≠ 201 →
      (transfer_repository c2FailedEnv).result = some false ∧
      (transfer_repository c2FailedEnv).clone_attempted = false ∧
      (transfer_repository c2FailedEnv).dir_present = false ∧
      (transfer_repository c2FailedEnv).events = [Step.Confirmed])) :=
  C5_state_order c2FailedEnv

/-! ## C6 — fate of the local mirror directory -/

/-- C6: on a run that reaches the push step, a failing `git push --mirror`
makes the job terminate with the mirror directory still on disk, while a
successful push leads to `shutil.rmtree` (errors suppressed) and the
directory is absent when the job completes. -/
theorem C6_mirror_dir (env : TransferEnv)
    (hconf : env.confirm = true) (hcreate : env.create_status = 201)
    (hclone : env.clone_rc = some 0) (hdir : env.clone_creates_dir = true)
    (hremote : env.set_remote_rc = some 0) :
    (∀ k, env.push_rc = some k → k ≠ 0 →
      (transfer_repository env).result = some false ∧
      (transfer_repository env).dir_present = true) ∧
    (env.push_rc = some 0 →
      (transfer_repository env).result = some true ∧
      (transfer_repository env).dir_present = false) := by
  constructor
  · intro k hk hkne
    have hk' : (k != 0) = true := by simpa using hkne
    simp [transfer_repository, hconf, hcreate, hclone, hdir, hremote, hk, hk']
  · intro hp
    unfold transfer_repository delete_repository
    simp only [hconf, hcreate, hclone, hdir, hremote, hp]
    repeat' split
    all_goals simp_all

/-- C6, witness: a push-failing run and the push-succeeding conclusion at the
same environment shape. -/
theorem C6_mirror_dir_witness :
    ({ happyEnv with push_rc := some 1 }.confirm = true ∧
     (transfer_repository { happyEnv with push_rc := some 1 }).result = some false ∧
     (transfer_repository { happyEnv with push_rc := some 1 }).dir_present = true) ∧
    (transfer_repository happyEnv).result = some true ∧
    (transfer_repository happyEnv).dir_present = false := by
  refine ⟨⟨rfl, ?_⟩, ?_⟩
  · exact (C6_mirror_dir { happyEnv with push_rc := some 1 }
      rfl rfl rfl rfl rfl).1 1 rfl (by decide)
  · exact (C6_mirror_dir happyEnv rfl rfl rfl rfl rfl).2 rfl

/-! ## C9 — the creation request sent to the destination -/

/-- C9: on every confirmed run, the creation request issued to the
destination account carries the source repository's name and
`private := true`, whatever the source repository's visibility is (the
source's visibility is not even consulted); an unconfirmed run issues no
creation request. -/
theorem C9_create_private (env : TransferEnv) :
    (env.confirm = true →
      (transfer_repository env).create_request =
        some { name := env.repo_name, is_private := true }) ∧
    (env.confirm = false → (transfer_repository env).create_request = none) := by
  constructor
  · intro h
    unfold transfer_repository
    simp only [h]
    repeat' split
    all_goals simp_all
  · intro h
    simp [transfer_repository, h]

/-- C9, witness: the creation request of a concrete confirmed run. -/
theorem C9_create_private_witness :
    (happyEnv.confirm = true →
      (transfer_repository happyEnv).create_request =
        some { name := happyEnv.repo_name, is_private := true }) ∧
    (happyEnv.confirm = false →
      (transfer_repository happyEnv).create_request = none) :=
  C9_create_private happyEnv

/-! ## C3 — batch confirmation vs per-repository confirmation -/

/-- C3, counterexample: duplicates a and b, nothing excluded, batch
confirmation granted and every DELETE would succeed (204), yet no deletion is
issued because `delete_repository` asks a further per-repository confirmation
and it is declined each time — refuting "no further per-repository
confirmation". -/
theorem C3_counterexample :
    c3Env.batch_confirm = true ∧
    c3Env.delete_status "a" = 204 ∧ c3Env.delete_status "b" = 204 ∧
    (delete_duplicate_repos "alice" c3MyAccount "bob" c3OtherAccount [] c3Env).attempts =
      ["a", "b"] ∧
    (delete_duplicate_repos "alice" c3MyAccount "bob" c3OtherAccount [] c3Env).issued_deletes =
      [] := by
  decide

/-- C3, amended: after the one batch confirmation the loop invokes
`delete_repository` once for every remaining repository, regardless of
earlier outcomes (it never aborts), but `delete_repository` asks an
additional per-repository confirmation, so an HTTP DELETE is issued exactly
for the remaining repositories whose per-repository confirmation is
granted. -/
theorem C3_loop_behaviour (username : String) (myAccount : ListResponse)
    (other_username : String) (otherAccount : ListResponse)
    (exclude : List String) (env : DeleteDupEnv)
    (hrem : (list_duplicate_repos username myAccount other_username otherAccount).filter
        (fun p => !(exclude.contains p.1)) ≠ [])
    (hconf : env.batch_confirm = true) :
    (delete_duplicate_repos username myAccount other_username otherAccount exclude env).attempts =
      ((list_duplicate_repos username myAccount other_username otherAccount).filter
        (fun p => !(exclude.contains p.1))).map Prod.fst ∧
    (delete_duplicate_repos username myAccount other_username otherAccount exclude env).issued_deletes =
      (((list_duplicate_repos username myAccount other_username otherAccount).filter
          (fun p => !(exclude.contains p.1))).filter
        (fun p => env.per_repo_confirm p.1)).map Prod.fst := by
  have hdup : (list_duplicate_repos username myAccount other_username otherAccount) ≠ [] := by
    intro h
    rw [h] at hrem
    simp at hrem
  have hd : (list_duplicate_repos username myAccount other_username otherAccount).isEmpty =
      false := List.isEmpty_eq_false.mpr hdup
  have hr : ((list_duplicate_repos username myAccount other_username otherAccount).filter
      (fun p => !(exclude.contains p.1))).isEmpty = false :=
    List.isEmpty_eq_false.mpr hrem
  unfold delete_duplicate_repos
  simp only [hd, hr, hconf, Bool.false_eq_true, if_false, Bool.not_true,
    issued_deletes_filter]
  exact ⟨trivial, trivial⟩

/-- C3, witness for the amended theorem: both duplicates remain, batch
confirmed, both per-repository prompts declined, so both are attempted and
none is deleted. -/
theorem C3_loop_behaviour_witness :
    ((list_duplicate_repos "alice" c3MyAccount "bob" c3OtherAccount).filter
        (fun p => !(([] : List String).contains p.1)) ≠ [] ∧
      c3Env.batch_confirm = true) ∧
    (delete_duplicate_repos "alice" c3MyAccount "bob" c3OtherAccount [] c3Env).attempts =
      ((list_duplicate_repos "alice" c3MyAccount "bob" c3OtherAccount).filter
        (fun p => !(([] : List String).contains p.1))).map Prod.fst ∧
    (delete_duplicate_repos "alice" c3MyAccount "bob" c3OtherAccount [] c3Env).issued_deletes =
      (((list_duplicate_repos "alice" c3MyAccount "bob" c3OtherAccount).filter
          (fun p => !(([] : List String).contains p.1))).filter
        (fun p => c3Env.per_repo_confirm p.1)).map Prod.fst :=
  ⟨⟨by decide, rfl⟩,
    C3_loop_behaviour "alice" c3MyAccount "bob" c3OtherAccount [] c3Env (by decide) rfl⟩

/-! ## C8 — the exclude set is honoured -/

/-- C8: no issued deletion ever targets an excluded name; an empty duplicate
set reports "No duplicate repositories found." with zero deletions; a
nonempty duplicate set whose every name is excluded reports the distinct
"All duplicates were excluded from deletion." with zero deletions. -/
theorem C8_exclusion (username : String) (myAccount : ListResponse)
    (other_username : String) (otherAccount : ListResponse)
    (exclude : List String) (env : DeleteDupEnv) :
    (∀ n ∈ (delete_duplicate_repos username myAccount other_username otherAccount
        exclude env).issued_deletes, n ∉ exclude) ∧
    (list_duplicate_repos username myAccount other_username otherAccount = [] →
      delete_duplicate_repos username myAccount other_username otherAccount exclude env =
        { attempts := [], issued_deletes := []
          messages := ["No duplicate repositories found."] }) ∧
    ((list_duplicate_repos username myAccount other_username otherAccount) ≠ [] →
      (∀ p ∈ list_duplicate_repos username myAccount other_username otherAccount,
        p.1 ∈ exclude) →
      delete_duplicate_repos username myAccount other_username otherAccount exclude env =
        { attempts := [], issued_deletes := []
          messages := ["All duplicates were excluded from deletion."] }) ∧
    ("All duplicates were excluded from deletion." ≠ "No duplicate repositories found.") := by
  refine ⟨?_, ?_, ?_, by decide⟩
  · intro n hn hmem
    by_cases hd : (list_duplicate_repos username myAccount other_username
        otherAccount).isEmpty = true
    · simp [delete_duplicate_repos, hd] at hn
    · by_cases hr : ((list_duplicate_repos username myAccount other_username
          otherAccount).filter (fun p => !(exclude.contains p.1))).isEmpty = true
      · simp only [delete_duplicate_repos, hd, hr, Bool.false_eq_true, if_false,
          if_true] at hn
        simp at hn
      · by_cases hb : env.batch_confirm = true
        · simp only [delete_duplicate_repos, hd, hr, hb, Bool.not_true,
            Bool.false_eq_true, if_false, issued_deletes_filter,
            List.mem_map] at hn
          obtain ⟨p, hp, rfl⟩ := hn
          have hc := (List.mem_filter.mp (List.mem_filter.mp hp).1).2
          simp at hc
          exact hc hmem
        · simp [delete_duplicate_repos, hd, hb] at hn
          split at hn <;> simp at hn
  · intro h
    simp [delete_duplicate_repos, h]
  · intro h hall
    have hd : (list_duplicate_repos username myAccount other_username otherAccount).isEmpty =
        false := List.isEmpty_eq_false.mpr h
    have hfil : (list_duplicate_repos username myAccount other_username otherAccount).filter
        (fun p => !(exclude.contains p.1)) = [] := by
      refine List.filter_eq_nil_iff.mpr ?_
      intro p hp
      simp [hall p hp]
    unfold delete_duplicate_repos
    simp only [hd, Bool.false_eq_true, if_false, hfil, List.isEmpty_nil, if_true]

/-- C8, witness: duplicates a and b with both excluded yields the
all-excluded outcome and zero deletions. -/
theorem C8_exclusion_witness :
    (list_duplicate_repos "alice" c3MyAccount "bob" c3OtherAccount ≠ [] ∧
      (∀ p ∈ list_duplicate_repos "alice" c3MyAccount "bob" c3OtherAccount,
        p.1 ∈ ["a", "b"])) ∧
    delete_duplicate_repos "alice" c3MyAccount "bob" c3OtherAccount ["a", "b"] allYesEnv =
      { attempts := [], issued_deletes := []
        messages := ["All duplicates were excluded from deletion."] } :=
  ⟨⟨by decide, by decide⟩,
    (C8_exclusion "alice" c3MyAccount "bob" c3OtherAccount ["a", "b"] allYesEnv).2.2.1
      (by decide) (by decide)⟩

/-! ## C10 — a failed fetch of the other account vs genuinely no duplicates -/

/-- C10, counterexample: with a failing fetch of the other account, the
returned mapping, the deletions and the reconciler's own report are the same
as against an other account with no repositories, yet the full console traces
of the two runs differ — `list_duplicate_repos` prints its fetch-error line
(github.py lines 265-267) — so the error is distinguishable at the
console-inclusive public interface. -/
theorem C10_counterexample :
    failedListResponse.status_code ≠ 200 ∧
    list_duplicate_repos "alice" c3MyAccount "bob" failedListResponse = [] ∧
    (delete_duplicate_repos "alice" c3MyAccount "bob" failedListResponse []
      allYesEnv).issued_deletes = [] ∧
    delete_duplicate_repos_console "alice" c3MyAccount "bob" failedListResponse []
        allYesEnv =
      ["Error fetching repositories for bob", "No duplicate repositories found."] ∧
    delete_duplicate_repos_console "alice" c3MyAccount "bob"
        { status_code := 200, repos := [] } [] allYesEnv =
      ["No duplicate repositories found."] ∧
    delete_duplicate_repos_console "alice" c3MyAccount "bob" failedListResponse []
        allYesEnv ≠
      delete_duplicate_repos_console "alice" c3MyAccount "bob"
        { status_code := 200, repos := [] } [] allYesEnv := by
  decide

/-- C10, amended: when the other account's listing request fails,
`list_duplicate_repos` returns the empty mapping and `delete_duplicate_repos`
reports "No duplicate repositories found." with zero deletions — identical in
returned value, deletions and the reconciler's own report to a run against an
other account with no repositories — but `list_duplicate_repos` first prints
its fetch-error line, so the two runs remain distinguishable in the full
console trace. -/
theorem C10_fetch_error_vs_empty (username : String) (myAccount : ListResponse)
    (other_username : String) (otherAccount : ListResponse)
    (exclude : List String) (env : DeleteDupEnv)
    (h : otherAccount.status_code ≠ 200) :
    list_duplicate_repos username myAccount other_username otherAccount = [] ∧
    delete_duplicate_repos username myAccount other_username otherAccount exclude env =
      { attempts := [], issued_deletes := []
        messages := ["No duplicate repositories found."] } ∧
    delete_duplicate_repos username myAccount other_username otherAccount exclude env =
      delete_duplicate_repos username myAccount other_username
        { status_code := 200, repos := [] } exclude env ∧
    delete_duplicate_repos_console username myAccount other_username otherAccount
        exclude env =
      ["Error fetching repositories for " ++ other_username,
        "No duplicate repositories found."] ∧
    delete_duplicate_repos_console username myAccount other_username
        { status_code := 200, repos := [] } exclude env =
      ["No duplicate repositories found."] ∧
    delete_duplicate_repos_console username myAccount other_username otherAccount
        exclude env ≠
      delete_duplicate_repos_console username myAccount other_username
        { status_code := 200, repos := [] } exclude env := by
  have h' : (otherAccount.status_code != 200) = true := by simpa using h
  have hlist : list_duplicate_repos username myAccount other_username otherAccount = [] := by
    unfold list_duplicate_repos
    simp [h]
  have hempty : list_duplicate_repos username myAccount other_username
      { status_code := 200, repos := [] } = [] := by
    unfold list_duplicate_repos
    simp [pageOf, pyDict, dictKeys, List.contains]
  have hout : delete_duplicate_repos username myAccount other_username otherAccount
      exclude env =
      { attempts := [], issued_deletes := []
        messages := ["No duplicate repositories found."] } := by
    simp [delete_duplicate_repos, hlist]
  have hout2 : delete_duplicate_repos username myAccount other_username
      { status_code := 200, repos := [] } exclude env =
      { attempts := [], issued_deletes := []
        messages := ["No duplicate repositories found."] } := by
    simp [delete_duplicate_repos, hempty]
  have hcon1 : delete_duplicate_repos_console username myAccount other_username
      otherAccount exclude env =
      ["Error fetching repositories for " ++ other_username,
        "No duplicate repositories found."] := by
    simp [delete_duplicate_repos_console, list_duplicate_repos_messages, h', hout]
  have hcon2 : delete_duplicate_repos_console username myAccount other_username
      { status_code := 200, repos := [] } exclude env =
      ["No duplicate repositories found."] := by
    simp [delete_duplicate_repos_console, list_duplicate_repos_messages, hout2]
  refine ⟨hlist, hout, by rw [hout, hout2], hcon1, hcon2, ?_⟩
  rw [hcon1, hcon2]
  intro he
  simp at he

/-- C10, witness: a 500 response on the other account, against an acting
account owning a and b. -/
theorem C10_fetch_error_vs_empty_witness :
    failedListResponse.status_code ≠ 200 ∧
    (list_duplicate_repos "alice" c3MyAccount "bob" failedListResponse = [] ∧
    delete_duplicate_repos "alice" c3MyAccount "bob" failedListResponse [] allYesEnv =
      { attempts := [], issued_deletes := []
        messages := ["No duplicate repositories found."] } ∧
    delete_duplicate_repos "alice" c3MyAccount "bob" failedListResponse [] allYesEnv =
      delete_duplicate_repos "alice" c3MyAccount "bob"
        { status_code := 200, repos := [] } [] allYesEnv ∧
    delete_duplicate_repos_console "alice" c3MyAccount "bob" failedListResponse []
        allYesEnv =
      ["Error fetching repositories for " ++ "bob",
        "No duplicate repositories found."] ∧
    delete_duplicate_repos_console "alice" c3MyAccount "bob"
        { status_code := 200, repos := [] } [] allYesEnv =
      ["No duplicate repositories found."] ∧
    delete_duplicate_repos_console "alice" c3MyAccount "bob" failedListResponse []
        allYesEnv ≠
      delete_duplicate_repos_console "alice" c3MyAccount "bob"
        { status_code := 200, repos := [] } [] allYesEnv) :=
  ⟨by decide,
    C10_fetch_error_vs_empty "alice" c3MyAccount "bob" failedListResponse []
      allYesEnv (by decide)⟩

/-! ## C7 — the duplicate set as a name intersection -/

theorem mem_dictKeys_dictInsert (d : List (String × String)) (k v n : String) :
    n ∈ dictKeys (dictInsert d k v) ↔ n ∈ dictKeys d ∨ n = k := by
  induction d with
  | nil => simp [dictInsert, dictKeys]
  | cons p rest ih =>
    obtain ⟨k0, v0⟩ := p
    by_cases h : (k0 == k) = true
    · have hk : k0 = k := by simpa using h
      subst hk
      simp [dictInsert, dictKeys]
      tauto
    · simp only [dictInsert, h, Bool.false_eq_true, if_false]
      simp [dictKeys] at ih ⊢
      tauto

theorem mem_dictInsert (d : List (String × String)) (k v : String)
    (q : String × String) (hq : q ∈ dictInsert d k v) : q ∈ d ∨ q = (k, v) := by
  induction d with
  | nil => simpa [dictInsert] using hq
  | cons p rest ih =>
    obtain ⟨k0, v0⟩ := p
    by_cases h : (k0 == k) = true
    · simp only [dictInsert, h, if_true] at hq
      rcases List.mem_cons.mp hq with h' | h'
      · exact Or.inr h'
      · exact Or.inl (List.mem_cons_of_mem _ h')
    · simp only [dictInsert, h, Bool.false_eq_true, if_false] at hq
      rcases List.mem_cons.mp hq with h' | h'
      · exact Or.inl (h' ▸ List.mem_cons_self _ _)
      · rcases ih h' with h'' | h''
        · exact Or.inl (List.mem_cons_of_mem _ h'')
        · exact Or.inr h''

theorem mem_dictKeys_foldl (l : List (String × String)) :
    ∀ (d : List (String × String)) (n : String),
      n ∈ dictKeys (l.foldl (fun d p => dictInsert d p.1 p.2) d) ↔
        n ∈ dictKeys d ∨ n ∈ dictKeys l := by
  induction l with
  | nil => intro d n; simp [dictKeys]
  | cons p rest ih =>
    intro d n
    simp only [List.foldl_cons]
    rw [ih, mem_dictKeys_dictInsert]
    simp [dictKeys]
    tauto

theorem mem_dictKeys_pyDict (l : List (String × String)) (n : String) :
    n ∈ dictKeys (pyDict l) ↔ n ∈ dictKeys l := by
  have := mem_dictKeys_foldl l [] n
  simpa [pyDict, dictKeys] using this

theorem mem_foldl_dictInsert (l : List (String × String)) :
    ∀ (d : List (String × String)) (q : String × String),
      q ∈ l.foldl (fun d p => dictInsert d p.1 p.2) d → q ∈ d ∨ q ∈ l := by
  induction l with
  | nil => intro d q h; exact Or.inl h
  | cons p rest ih =>
    intro d q h
    rcases ih _ q h with h' | h'
    · rcases mem_dictInsert d p.1 p.2 q h' with h'' | h''
      · exact Or.inl h''
      · right
        rw [h'']
        exact List.mem_cons_self _ _
    · exact Or.inr (List.mem_cons_of_mem _ h')

theorem mem_pyDict (l : List (String × String)) (q : String × String)
    (h : q ∈ pyDict l) : q ∈ l := by
  rcases mem_foldl_dictInsert l [] q h with h' | h'
  · simp at h'
  · exact h'

theorem processRepos_owner (username : String) (l : List RepoJson) :
    processRepos username "owner" l =
      (l.filter (fun r => strLower r.owner_login == strLower username)).map
        (mkRepoInfo username) := by
  induction l with
  | nil => rfl
  | cons r rest ih =>
    by_cases h : (strLower r.owner_login == strLower username) = true
    · simp [processRepos, mkRepoInfo, h, ih]
    · simp [processRepos, mkRepoInfo, h, ih]

theorem mem_ownerNames (username n : String) (l : List RepoJson) :
    n ∈ ownerNames username l ↔
      ∃ r ∈ l, strLower r.owner_login = strLower username ∧ r.name = n := by
  simp [ownerNames, List.mem_filter, List.mem_map]
  tauto

/-- C7, counterexample: alice owns 101 repositories, the 101st of which
(dup) is also owned by carol; dup is in the name-intersection of the two
accounts' owner-only repository sets, yet `list_duplicate_repos` returns the
empty mapping, because each listing request fetches only the first 100
repositories. -/
theorem C7_counterexample :
    "dup" ∈ ownerNames "alice" c7MyAccount.repos ∧
    "dup" ∈ ownerNames "carol" c7OtherAccount.repos ∧
    list_duplicate_repos "alice" c7MyAccount "carol" c7OtherAccount = [] := by
  decide

set_option maxHeartbeats 1000000 in
/-- C7, amended: over the first listing page (at most 100 repositories) of
each account, `list_duplicate_repos` returns exactly the name-intersection of
the owner-only repositories — ownership decided by case-insensitive login
comparison on both sides — and maps each name to the acting account's
visibility value for a repository of that name. -/
theorem C7_intersection_first_page (username : String) (myAccount : ListResponse)
    (other_username : String) (otherAccount : ListResponse)
    (hmy : myAccount.status_code = 200) (hother : otherAccount.status_code = 200) :
    (∀ n, n ∈ dictKeys (list_duplicate_repos username myAccount other_username otherAccount) ↔
        (n ∈ ownerNames username (pageOf myAccount.repos 100 1) ∧
         n ∈ ownerNames other_username (pageOf otherAccount.repos 100 1))) ∧
    (∀ p ∈ list_duplicate_repos username myAccount other_username otherAccount,
        ∃ r ∈ pageOf myAccount.repos 100 1,
          strLower r.owner_login = strLower username ∧ r.name = p.1 ∧
          p.2 = (if r.is_private then "Private" else "Public")) := by
  have hmy' : (myAccount.status_code != 200) = false := by simp [hmy]
  have hother' : (otherAccount.status_code != 200) = false := by simp [hother]
  have hresult : list_duplicate_repos username myAccount other_username otherAccount =
      pyDict ((((pageOf myAccount.repos 100 1).filter
          (fun r => strLower r.owner_login == strLower username)).filter
            (fun r => (dictKeys (pyDict (((pageOf otherAccount.repos 100 1).filter
              (fun r => strLower r.owner_login == strLower other_username)).map
                (fun r => (r.name,
                  if r.is_private then "Private" else "Public"))))).contains r.name)).map
        (fun r => (r.name, if r.is_private then "Private" else "Public"))) := by
    unfold list_duplicate_repos get_repositories
    simp only [hmy', hother', Bool.false_eq_true, if_false, processRepos_owner,
      List.filter_map, List.map_map]
    rfl
  constructor
  · intro n
    rw [hresult, mem_dictKeys_pyDict]
    simp only [dictKeys, List.map_map, List.mem_map, Function.comp, List.mem_filter]
    constructor
    · rintro ⟨r, ⟨⟨hrmem, hrown⟩, hcont⟩, rfl⟩
      refine ⟨(mem_ownerNames _ _ _).mpr ⟨r, hrmem, by simpa using hrown, rfl⟩, ?_⟩
      have hkey := (mem_dictKeys_pyDict _ _).mp (List.elem_iff.mp hcont)
      simpa [dictKeys, List.map_map, Function.comp, ownerNames] using hkey
    · rintro ⟨hmine, hother2⟩
      obtain ⟨r, hrmem, hrown, rfl⟩ := (mem_ownerNames _ _ _).mp hmine
      refine ⟨r, ⟨⟨hrmem, by simpa using hrown⟩, ?_⟩, rfl⟩
      refine List.elem_iff.mpr ((mem_dictKeys_pyDict _ _).mpr ?_)
      simpa [dictKeys, List.map_map, Function.comp, ownerNames] using hother2
  · intro p hp
    rw [hresult] at hp
    obtain ⟨r, hr, rfl⟩ := List.mem_map.mp (mem_pyDict _ _ hp)
    have h1 := List.mem_filter.mp (List.mem_filter.mp hr).1
    exact ⟨r, h1.1, by simpa using h1.2, rfl, rfl⟩

/-- C7, witness for the amended theorem at two small accounts sharing the
names a and b. -/
theorem C7_intersection_first_page_witness :
    (c3MyAccount.status_code = 200 ∧ c3OtherAccount.status_code = 200) ∧
    ((∀ n, n ∈ dictKeys (list_duplicate_repos "alice" c3MyAccount "bob" c3OtherAccount) ↔
        (n ∈ ownerNames "alice" (pageOf c3MyAccount.repos 100 1) ∧
         n ∈ ownerNames "bob" (pageOf c3OtherAccount.repos 100 1))) ∧
    (∀ p ∈ list_duplicate_repos "alice" c3MyAccount "bob" c3OtherAccount,
        ∃ r ∈ pageOf c3MyAccount.repos 100 1,
          strLower r.owner_login = strLower "alice" ∧ r.name = p.1 ∧
          p.2 = (if r.is_private then "Private" else "Public"))) :=
  ⟨⟨rfl, rfl⟩, C7_intersection_first_page "alice" c3MyAccount "bob" c3OtherAccount rfl rfl⟩

end GetGit
